import Mathlib

/-!
Shallow embedding of mozey/go-passwordless-sqlite.

The repository implements passwordless authentication: a token is generated,
delivered out of band, stored hashed (bcrypt) in a SQLite table keyed on uid,
and later verified and consumed.  This file embeds the data model and the
operations of `SQLiteStore` (sqlite.go), the `TokenStore` error taxonomy
(store.go), and — modelled from the spec, since the core `passwordless.go`
source is not available — the package-level `RequestToken` / `VerifyToken`
protocol.

Modelling conventions:
* Go `error` results become `Option GoErr`; `none` is Go's `nil`.
  `errors.WithStack` only annotates an error with a stack trace and preserves
  its identity under `errors.Is` / `.Error()`, so it is modelled as the
  identity function.
* Go `time.Time` values are instants measured in integer nanoseconds since the
  Unix epoch (Go's `time.Duration` is an int64 nanosecond count).  `Unix()`
  floors to whole seconds.  Timestamps written by `Store` go through
  `Format(DateFormatISO8601)` and are read back through `time.Parse`; the
  format has second resolution, so the round trip floors the instant to a
  whole second.  Rows therefore carry their `expires` / `created` columns as
  the whole-second values that the reads observe.
* bcrypt: `bcrypt.GenerateFromPassword` is salted and random, so the salt is
  an explicit parameter; the digest is modelled as the pair (salt, password),
  reflecting bcrypt's functional contract that `CompareHashAndPassword`
  succeeds exactly when the hash was derived from the given password (the
  collision-free idealisation).  Storing the password inside the model digest
  is a modelling artifact, not a statement that the code stores plaintext.
* The SQLite table is a `List Session` of rows; the `insert ... on
  conflict(uid) do update set token, expires` statement becomes an explicit
  upsert on that list.  `select ... where uid = ?` with a single `rows.Next()`
  reads the first matching row.
-/

/-- Error values of the package: the four sentinel errors of store.go
(`ErrTokenNotFound`, `ErrTokenExpired`, `ErrDBConnectionNotValid`,
`ErrTableNameNotValid`), the core's `ErrTokenNotValid`, `ErrUnknownStrategy`
and `ErrNotValidForContext`, and `generic msg` for ad-hoc errors built with
`errors.Errorf` / `fmt.Errorf` (such as the mocks' "refused send"). -/
inductive GoErr where
  | tokenNotFound
  | tokenExpired
  | tokenNotValid
  | dbConnectionNotValid
  | tableNameNotValid
  | unknownStrategy
  | notValidForContext
  | generic (msg : String)
  deriving DecidableEq, Repr

/-- Nanoseconds per second: Go's `time.Second` as an int64 nanosecond count. -/
def nsPerSec : Int := 1000000000

/-- Go's `Time.Unix()`: whole seconds since the epoch, flooring (a Go time is
`sec + nsec` with `0 ≤ nsec < 1e9`, so `Unix()` is the floor of the instant in
seconds).  The argument is an instant in nanoseconds. -/
def unixSec (t : Int) : Int := Int.fdiv t nsPerSec

/-- Model of a bcrypt hash: the salt together with the password it was derived
from.  `CompareHashAndPassword` re-derives the digest from the stored salt and
the candidate password and compares, so observationally a bcrypt hash is
exactly this pair (assuming no collisions). -/
structure BcryptHash where
  salt : Nat
  password : String
  deriving DecidableEq, Repr

namespace bcrypt

/-- `bcrypt.GenerateFromPassword(token, DefaultCost)` with the random salt made
an explicit parameter.  The cost only scales work, not the comparison
semantics, so it is not modelled. -/
def GenerateFromPassword (salt : Nat) (password : String) : BcryptHash :=
  ⟨salt, password⟩

/-- `bcrypt.CompareHashAndPassword(hash, candidate)` succeeds (returns nil)
exactly when the hash was generated from the candidate.  Modelled as a `Bool`:
`true` is a nil error. -/
def CompareHashAndPassword (hash : BcryptHash) (password : String) : Bool :=
  hash.password == password

end bcrypt

/-- A row of the session table (struct `Session` of sqlite.go).  `expires` and
`created` hold the Unix-second values observed after the `Format`/`Parse`
round trip of the second-resolution `DateFormatISO8601` format. -/
structure Session where
  tokenHash : BcryptHash
  uid : String
  expires : Int
  created : Int
  deriving DecidableEq, Repr

namespace SQLiteStore

/-- `getSessionByUID`: `select token, expires, created from session where
uid = ?`, reading the first returned row; no row is `ErrTokenNotFound`.
Timestamp parse failures cannot occur for rows written by `Store` and are
outside the model. -/
def getSessionByUID (db : List Session) (uid : String) : Except GoErr Session :=
  match db.find? (fun r => r.uid == uid) with
  | some r => .ok r
  | none => .error .tokenNotFound

/-- `SQLiteStore.Store(ctx, token, uid, ttl)`: bcrypt-hash the token, then
`insert into session (uid, token, expires, created) values (...) on
conflict(uid) do update set token = excluded.token, expires =
excluded.expires`.  `now` is the current instant in nanoseconds; the stored
`expires` column is `time.Now().UTC().Add(ttl)` and the stored `created`
column is `time.Now().UTC()`, both formatted at second resolution.  SQL
execution errors are outside the model. -/
def Store (db : List Session) (salt : Nat) (now : Int) (token uid : String)
    (ttl : Int) : List Session :=
  let hashedToken := bcrypt.GenerateFromPassword salt token
  let expires := unixSec (now + ttl)
  let created := unixSec now
  if db.any (fun r => r.uid == uid) then
    db.map (fun r =>
      if r.uid == uid then { r with tokenHash := hashedToken, expires := expires }
      else r)
  else
    db ++ [⟨hashedToken, uid, expires, created⟩]

/-- `SQLiteStore.Exists(ctx, uid)`: look the row up; on error propagate it with
a `false` and a zero expiry time (`none` models Go's zero `time.Time`); if
`now > expires` (Unix seconds, strict) report expired, again with zero expiry;
otherwise report the row's expiry. -/
def Exists (db : List Session) (now : Int) (uid : String) :
    Bool × Option Int × Option GoErr :=
  match getSessionByUID db uid with
  | .error e => (false, none, some e)
  | .ok session =>
    if unixSec now > session.expires then (false, none, some .tokenExpired)
    else (true, some session.expires, none)

/-- `SQLiteStore.Verify(ctx, token, uid)`, instrumented with the number of
bcrypt comparisons performed: look the row up (errors propagate), check
`now > expires` (Unix seconds, strict) before any hash work, and only then run
`bcrypt.CompareHashAndPassword`; a mismatch is mapped to `ErrTokenNotValid`.
The second component counts calls to the bcrypt comparison. -/
def VerifyInstr (db : List Session) (now : Int) (token uid : String) :
    (Bool × Option GoErr) × Nat :=
  match getSessionByUID db uid with
  | .error e => ((false, some e), 0)
  | .ok session =>
    if unixSec now > session.expires then ((false, some .tokenExpired), 0)
    else if bcrypt.CompareHashAndPassword session.tokenHash token then
      ((true, none), 1)
    else ((false, some .tokenNotValid), 1)

/-- `SQLiteStore.Verify(ctx, token, uid)`: the observable result of
`VerifyInstr`. -/
def Verify (db : List Session) (now : Int) (token uid : String) :
    Bool × Option GoErr :=
  (VerifyInstr db now token uid).1

/-- `SQLiteStore.Delete(ctx, uid)` as found in the source: an unimplemented
stub, `return errors.Errorf("TODO Delete")` — no SQL is executed, the table is
unchanged and a non-nil error is always returned. -/
def Delete (db : List Session) (uid : String) : List Session × Option GoErr :=
  (db, some (.generic "TODO Delete"))

end SQLiteStore

/-- Modelled from the spec: the package-level `RequestToken(ctx, store,
strategy, uid, recipient)` of the core `passwordless.go`, which is not among
the available source files (only its tests are).  Per §4.1 / §7 of the spec it
runs three stages strictly in order — `strategy.Generate`, then
`strategy.Send` with the generated token, then `store.Store` with the
configured TTL — returning the first failing stage's error verbatim and
invoking no later stage after a failure.  `gen` is the outcome of Generate;
`send` gives Send's outcome for the token it is handed; `storeFn` is Store as
a state transformer on the token store's state `σ` (returning the new state
and Store's error).  The result is the final store state and RequestToken's
error. -/
def RequestToken {σ : Type} (gen : Except GoErr String)
    (send : String → Option GoErr) (storeFn : σ → String → σ × Option GoErr)
    (st : σ) : σ × Option GoErr :=
  match gen with
  | .error e => (st, some e)
  | .ok token =>
    match send token with
    | some e => (st, some e)
    | none => storeFn st token

/-- Modelled from the spec: the package-level `VerifyToken(ctx, store, uid,
token)` of the core `passwordless.go`, which is not among the available source
files (only its tests are).  Per §4.1 of the spec it delegates to the store's
Verify; a Verify error or a negative result is returned as is; on success
(`valid=true`, nil error) it immediately issues Delete for the same uid, and a
Delete failure is returned alongside `valid=true` rather than masking the
successful verification.  `verifyFn` is the store's Verify on its state `σ`;
`deleteFn` is Delete as a state transformer.  The result is the final store
state, the validity, and VerifyToken's error. -/
def VerifyToken {σ : Type} (verifyFn : σ → Bool × Option GoErr)
    (deleteFn : σ → σ × Option GoErr) (st : σ) : σ × Bool × Option GoErr :=
  match verifyFn st with
  | (true, none) =>
    let (st2, derr) := deleteFn st
    (st2, true, derr)
  | (valid, err) => (st, valid, err)

/-- The `created` column of the row for `uid` after a `Store`: on a uid
conflict the update clause does not touch `created`, so it is the old row's
value; on a fresh insert it is the current instant at second resolution. -/
def createdAfter (db : List Session) (now : Int) (uid : String) : Int :=
  match db.find? (fun r => r.uid == uid) with
  | some r => r.created
  | none => unixSec now

theorem unixSec_mono {a b : Int} (h : a ≤ b) : unixSec a ≤ unixSec b := by
  unfold unixSec
  rw [Int.fdiv_eq_ediv _ (by norm_num [nsPerSec] : (0:Int) ≤ nsPerSec),
    Int.fdiv_eq_ediv _ (by norm_num [nsPerSec] : (0:Int) ≤ nsPerSec)]
  exact Int.ediv_le_ediv (by norm_num [nsPerSec]) h

theorem find?_map_update (db : List Session) (uid : String) (hsh : BcryptHash)
    (e : Int) :
    (db.map (fun r =>
        if r.uid == uid then { r with tokenHash := hsh, expires := e } else r)).find?
        (fun r => r.uid == uid)
      = (db.find? (fun r => r.uid == uid)).map
          (fun r => { r with tokenHash := hsh, expires := e }) := by
  induction db with
  | nil => rfl
  | cons a t ih =>
    by_cases ha : a.uid = uid
    · simp [List.find?, ha]
    · have ha' : (a.uid == uid) = false := by simp [ha]
      simp only [List.map_cons, List.find?]
      rw [ha']
      simpa [ha'] using ih

theorem find?_append_of_none {α : Type} (p : α → Bool) {l1 : List α}
    (l2 : List α) (h : l1.find? p = none) :
    (l1 ++ l2).find? p = l2.find? p := by
  induction l1 with
  | nil => rfl
  | cons a t ih =>
    rcases hpa : p a with _ | _
    · simp only [List.cons_append, List.find?, hpa]
      exact ih (by simpa [List.find?, hpa] using h)
    · simp [List.find?, hpa] at h

/-- The row that `getSessionByUID` sees for `uid` right after a `Store` for
`uid`: the fresh bcrypt hash, the fresh expiry, and `createdAfter` for the
`created` column. -/
theorem getSessionByUID_Store (db : List Session) (salt : Nat) (now : Int)
    (token uid : String) (ttl : Int) :
    SQLiteStore.getSessionByUID (SQLiteStore.Store db salt now token uid ttl) uid
      = .ok ⟨bcrypt.GenerateFromPassword salt token, uid, unixSec (now + ttl),
          createdAfter db now uid⟩ := by
  unfold SQLiteStore.getSessionByUID SQLiteStore.Store createdAfter
  by_cases hany : db.any (fun r => r.uid == uid)
  · simp only [hany, if_true]
    rw [find?_map_update]
    obtain ⟨r, hr, hruid⟩ := List.any_eq_true.mp hany
    rcases hfind : db.find? (fun r => r.uid == uid) with _ | s
    · rw [List.find?_eq_none] at hfind
      exact absurd hruid (hfind r hr)
    · have hsuid : s.uid = uid := by
        simpa using List.find?_some hfind
      simp [hfind, hsuid]
  · have hfind : db.find? (fun r => r.uid == uid) = none := by
      rw [List.find?_eq_none]
      intro x hx
      simp only [List.any_eq_true, not_exists, not_and] at hany
      simp [hany x hx]
    simp only [hany, if_false, Bool.false_eq_true]
    rw [find?_append_of_none _ _ hfind, hfind]
    simp [List.find?]

theorem filter_ne_map_update (db : List Session) (uid : String)
    (hsh : BcryptHash) (e : Int) :
    (db.map (fun r =>
        if r.uid == uid then { r with tokenHash := hsh, expires := e } else r)).filter
        (fun r => !(r.uid == uid))
      = db.filter (fun r => !(r.uid == uid)) := by
  induction db with
  | nil => rfl
  | cons a t ih =>
    simp only [List.map_cons, List.filter_cons]
    by_cases ha : a.uid = uid
    · have ha' : (a.uid == uid) = true := by simp [ha]
      rw [ha']
      simp only [if_true, ha', Bool.not_true, Bool.false_eq_true, if_false]
      exact ih
    · have ha' : (a.uid == uid) = false := by simp [ha]
      rw [ha']
      simp only [Bool.false_eq_true, if_false, ha', Bool.not_false, if_true]
      rw [ih]

/-- Rows of other uids are untouched by `Store`, in content and order. -/
theorem Store_filter_ne (db : List Session) (salt : Nat) (now : Int)
    (token uid : String) (ttl : Int) :
    (SQLiteStore.Store db salt now token uid ttl).filter (fun r => !(r.uid == uid))
      = db.filter (fun r => !(r.uid == uid)) := by
  unfold SQLiteStore.Store
  by_cases hany : db.any (fun r => r.uid == uid)
  · simp only [hany, if_true]
    exact filter_ne_map_update db uid _ _
  · simp only [hany, if_false, Bool.false_eq_true]
    simp [List.filter_append, List.filter]

/-- C1: the claim says a wrong-but-present token yields `(false, nil)`, and so
does the repository's own test (`TestSQLiteStoreVerify`, "Token wrong" case,
which requires `NoError`).  The code disagrees: on a bcrypt mismatch
`SQLiteStore.Verify` returns `errors.WithStack(ErrTokenNotValid)`, a non-nil
error.  This theorem evaluates the code at the test's own input — store
"token" for "uid" with a 1h TTL, then verify "bad_token" — and shows the
result is `(false, ErrTokenNotValid)`, not `(false, nil)`. -/
theorem verify_mismatch_returns_tokenNotValid :
    SQLiteStore.Verify (SQLiteStore.Store [] 0 0 "token" "uid" (3600 * nsPerSec))
      0 "bad_token" "uid" = (false, some GoErr.tokenNotValid) := by decide

/-- C2: the claim says `Delete(ctx, uid)` removes the uid's session row so a
verified token cannot verify again.  The code's Delete is the stub
`return errors.Errorf("TODO Delete")`: it executes no SQL, always fails, and
leaves the row in place — the spec itself flags this as a genuine gap (§9).
This theorem evaluates the code: after storing a token and verifying it,
Delete returns the table unchanged with a non-nil error, and the same token
still verifies. -/
theorem delete_stub_token_replays :
    SQLiteStore.Delete (SQLiteStore.Store [] 0 0 "t" "uid" (3600 * nsPerSec)) "uid"
        = (SQLiteStore.Store [] 0 0 "t" "uid" (3600 * nsPerSec),
            some (GoErr.generic "TODO Delete"))
      ∧ SQLiteStore.Verify (SQLiteStore.Store [] 0 0 "t" "uid" (3600 * nsPerSec))
          0 "t" "uid" = (true, none)
      ∧ SQLiteStore.Verify
          (SQLiteStore.Delete (SQLiteStore.Store [] 0 0 "t" "uid" (3600 * nsPerSec))
            "uid").1 0 "t" "uid" = (true, none) := by decide

/-- C5: for every table, uid and token, `Store(token, uid, ttl)` with
`ttl > 0` followed immediately (same instant `now`) by
`Verify(token, uid)` returns `(true, nil)`: the stored bcrypt hash
round-trips for the token that was stored. -/
theorem store_verify_roundtrip (db : List Session) (salt : Nat) (now : Int)
    (token uid : String) (ttl : Int) (h : 0 < ttl) :
    SQLiteStore.Verify (SQLiteStore.Store db salt now token uid ttl) now token uid
      = (true, none) := by
  unfold SQLiteStore.Verify SQLiteStore.VerifyInstr
  rw [getSessionByUID_Store]
  have hle : unixSec now ≤ unixSec (now + ttl) := unixSec_mono (by omega)
  simp [bcrypt.CompareHashAndPassword, bcrypt.GenerateFromPassword, not_lt.mpr hle]

theorem store_verify_roundtrip_witness :
    (0 : Int) < 3600 * nsPerSec
      ∧ SQLiteStore.Verify (SQLiteStore.Store [] 0 0 "ABCD1234" "alice" (3600 * nsPerSec))
          0 "ABCD1234" "alice" = (true, none) :=
  ⟨by decide, store_verify_roundtrip [] 0 0 "ABCD1234" "alice" (3600 * nsPerSec) (by decide)⟩

/-- C6: the claim says a second Store for the same uid replaces the row (which
the code's upsert does: the table still has exactly one row and the new token
verifies) and that `Verify(t1, uid)` afterwards yields `(false, nil)`.  The
code instead yields `(false, ErrTokenNotValid)` for the replaced token — the
same non-nil-mismatch-error slip as C1, which the repository's own test
contradicts.  This theorem evaluates the code on
`Store(t1,uid,1h); Store(t2,uid,1h)`. -/
theorem second_store_replaces_row :
    (SQLiteStore.Store (SQLiteStore.Store [] 0 0 "t1" "uid" (3600 * nsPerSec))
        1 0 "t2" "uid" (3600 * nsPerSec)).length = 1
      ∧ SQLiteStore.Verify
          (SQLiteStore.Store (SQLiteStore.Store [] 0 0 "t1" "uid" (3600 * nsPerSec))
            1 0 "t2" "uid" (3600 * nsPerSec)) 0 "t2" "uid" = (true, none)
      ∧ SQLiteStore.Verify
          (SQLiteStore.Store (SQLiteStore.Store [] 0 0 "t1" "uid" (3600 * nsPerSec))
            1 0 "t2" "uid" (3600 * nsPerSec)) 0 "t1" "uid"
          = (false, some GoErr.tokenNotValid) := by decide

/-- C7 counterexample: the claim includes `Store` with `ttl = 0` among the
expired states, but expiry is the strict Unix-second comparison
`now > expires`, so a row stored with `ttl = 0` and checked at the same
instant is not expired: `Exists` returns `(true, expiry, nil)`, not
`(false, ErrTokenExpired)`. -/
theorem exists_ttl_zero_not_expired :
    SQLiteStore.Exists (SQLiteStore.Store [] 0 0 "t" "uid" 0) 0 "uid"
      = (true, some 0, none) := by decide

/-- C7 (amended): for every uid whose stored token has expired — stored expiry
second strictly below the current second, e.g. `Store` with `ttl ≤ -1s`
checked at the same instant, or the TTL having elapsed — `Exists` returns
`exists = false` with a zero expiry and `ErrTokenExpired`, never a stale
`true`; and for a uid with no row it returns `exists = false` with
`ErrTokenNotFound`. -/
theorem exists_expired_reports_error (db : List Session) (salt : Nat)
    (now : Int) (token uid : String) (ttl : Int) :
    (unixSec (now + ttl) < unixSec now →
      SQLiteStore.Exists (SQLiteStore.Store db salt now token uid ttl) now uid
        = (false, none, some GoErr.tokenExpired))
    ∧ (db.find? (fun r => r.uid == uid) = none →
      SQLiteStore.Exists db now uid = (false, none, some GoErr.tokenNotFound)) := by
  constructor
  · intro hlt
    unfold SQLiteStore.Exists
    rw [getSessionByUID_Store]
    simp [hlt]
  · intro hnone
    unfold SQLiteStore.Exists SQLiteStore.getSessionByUID
    rw [hnone]

theorem exists_expired_reports_error_witness :
    SQLiteStore.Exists (SQLiteStore.Store [] 0 0 "t" "uid" (-(2 * nsPerSec))) 0 "uid"
        = (false, none, some GoErr.tokenExpired)
      ∧ SQLiteStore.Exists [] 0 "bob" = (false, none, some GoErr.tokenNotFound) :=
  ⟨(exists_expired_reports_error [] 0 0 "t" "uid" (-(2 * nsPerSec))).1 (by decide),
   (exists_expired_reports_error [] 0 0 "t" "bob" (-(2 * nsPerSec))).2 (by decide)⟩

/-- C3: `RequestToken` runs generate → send → store strictly in that order,
propagating the first failing stage's error verbatim; when Send fails, Store
is never invoked (the invocation counter of an instrumented store does not
advance) and, with the SQLite store as the backend, the table is unchanged —
in particular no row for the uid exists afterwards when none existed before.
(Modelled from the spec, as the core `passwordless.go` is not among the
available sources.) -/
theorem requestToken_stage_order {σ : Type} (gen : Except GoErr String)
    (send : String → Option GoErr) (storeFn : σ → String → σ × Option GoErr)
    (st : σ) :
    (∀ e, gen = .error e → RequestToken gen send storeFn st = (st, some e))
    ∧ (∀ t e, gen = .ok t → send t = some e →
        RequestToken gen send storeFn st = (st, some e))
    ∧ (∀ t, gen = .ok t → send t = none →
        RequestToken gen send storeFn st = storeFn st t)
    ∧ (∀ t e (n : Nat), gen = .ok t → send t = some e →
        (RequestToken gen send
            (fun p tok => (((storeFn p.1 tok).1, p.2 + 1), (storeFn p.1 tok).2))
            (st, n)).1.2 = n)
    ∧ (∀ t e salt (now : Int) (u : String) (ttl : Int) (db : List Session),
        gen = .ok t → send t = some e →
        (RequestToken gen send
            (fun d tok => (SQLiteStore.Store d salt now tok u ttl, none)) db).1.find?
            (fun r => r.uid == u)
          = db.find? (fun r => r.uid == u)) := by
  refine ⟨?_, ?_, ?_, ?_, ?_⟩
  · intro e hg
    simp [RequestToken, hg]
  · intro t e hg hs
    simp [RequestToken, hg, hs]
  · intro t hg hs
    simp [RequestToken, hg, hs]
  · intro t e n hg hs
    simp [RequestToken, hg, hs]
  · intro t e salt now u ttl db hg hs
    simp [RequestToken, hg, hs]

theorem requestToken_stage_order_witness :
    RequestToken (.error (.generic "refused generate")) (fun _ => none)
        (fun (d : List Session) tok => (SQLiteStore.Store d 0 0 tok "uid" nsPerSec, none))
        ([] : List Session)
      = ([], some (.generic "refused generate"))
    ∧ RequestToken (.ok "1337") (fun _ => some (.generic "refused send"))
        (fun (d : List Session) tok => (SQLiteStore.Store d 0 0 tok "uid" nsPerSec, none))
        ([] : List Session)
      = ([], some (.generic "refused send"))
    ∧ (RequestToken (.ok "1337") (fun _ => some (.generic "refused send"))
        (fun (d : List Session) tok => (SQLiteStore.Store d 0 0 tok "uid" nsPerSec, none))
        ([] : List Session)).1.find? (fun r => r.uid == "uid") = none :=
  ⟨(requestToken_stage_order (.error (.generic "refused generate")) (fun _ => none)
      (fun (d : List Session) tok => (SQLiteStore.Store d 0 0 tok "uid" nsPerSec, none))
      ([] : List Session)).1 _ rfl,
   (requestToken_stage_order (.ok "1337") (fun _ => some (.generic "refused send"))
      (fun (d : List Session) tok => (SQLiteStore.Store d 0 0 tok "uid" nsPerSec, none))
      ([] : List Session)).2.1 "1337" _ rfl rfl,
   ((requestToken_stage_order (.ok "1337") (fun _ => some (.generic "refused send"))
      (fun (d : List Session) tok => (SQLiteStore.Store d 0 0 tok "uid" nsPerSec, none))
      ([] : List Session)).2.2.2.2 "1337" (.generic "refused send")
      0 0 "uid" nsPerSec [] rfl rfl).trans rfl⟩

/-- C4: `SQLiteStore.Verify` evaluates expiry before the hash comparison: on a
row with `now > expires` it returns `(false, ErrTokenExpired)` having
performed zero bcrypt comparisons, and a bcrypt comparison is performed (once)
exactly when the row is present and not expired. -/
theorem verify_expiry_before_hash (db : List Session) (now : Int)
    (token uid : String) :
    ((SQLiteStore.VerifyInstr db now token uid).2 ≠ 0 ↔
      ∃ s, SQLiteStore.getSessionByUID db uid = .ok s
        ∧ ¬ unixSec now > s.expires)
    ∧ (∀ s, SQLiteStore.getSessionByUID db uid = .ok s →
        unixSec now > s.expires →
        SQLiteStore.Verify db now token uid = (false, some GoErr.tokenExpired)
          ∧ (SQLiteStore.VerifyInstr db now token uid).2 = 0) := by
  unfold SQLiteStore.Verify SQLiteStore.VerifyInstr
  rcases hs : SQLiteStore.getSessionByUID db uid with e | s
  · simp
  · by_cases hexp : unixSec now > s.expires
    · simp [hexp]
    · by_cases hc : bcrypt.CompareHashAndPassword s.tokenHash token
      · simp only [hexp, hc, if_true, if_false]
        constructor
        · simp
          exact not_lt.mp hexp
        · intro s' hs' hgt
          cases hs'
          exact absurd hgt hexp
      · simp only [hexp, hc, if_false, Bool.false_eq_true]
        constructor
        · simp
          exact not_lt.mp hexp
        · intro s' hs' hgt
          cases hs'
          exact absurd hgt hexp

theorem verify_expiry_before_hash_witness :
    SQLiteStore.Verify (SQLiteStore.Store [] 0 0 "t" "uid" (-(2 * nsPerSec)))
        0 "bad" "uid" = (false, some GoErr.tokenExpired)
      ∧ (SQLiteStore.VerifyInstr (SQLiteStore.Store [] 0 0 "t" "uid" (-(2 * nsPerSec)))
          0 "bad" "uid").2 = 0 :=
  (verify_expiry_before_hash (SQLiteStore.Store [] 0 0 "t" "uid" (-(2 * nsPerSec)))
      0 "bad" "uid").2 ⟨⟨0, "t"⟩, "uid", -2, 0⟩ (by rfl) (by decide)

/-- C8: when the token store's Verify reports `(true, nil)` but the Delete that
`VerifyToken` then issues fails, `VerifyToken` returns `valid = true` together
with the delete error: the success is not masked and the error is not
swallowed.  (Modelled from the spec, as the core `passwordless.go` is not
among the available sources.) -/
theorem verifyToken_delete_error_not_masked {σ : Type} (verifyFn : σ → Bool × Option GoErr)
    (deleteFn : σ → σ × Option GoErr) (st st2 : σ) (e : GoErr)
    (hv : verifyFn st = (true, none)) (hd : deleteFn st = (st2, some e)) :
    VerifyToken verifyFn deleteFn st = (st2, true, some e) := by
  simp [VerifyToken, hv, hd]

theorem verifyToken_delete_error_not_masked_witness :
    VerifyToken (fun d => SQLiteStore.Verify d 0 "t" "uid")
        (fun d => SQLiteStore.Delete d "uid")
        (SQLiteStore.Store [] 0 0 "t" "uid" (3600 * nsPerSec))
      = (SQLiteStore.Store [] 0 0 "t" "uid" (3600 * nsPerSec), true,
          some (GoErr.generic "TODO Delete")) :=
  verifyToken_delete_error_not_masked _ _ _ _ (GoErr.generic "TODO Delete")
    (by decide) (by decide)

/-- C9: `Store`'s upsert frame: with no existing row for the uid it appends a
fresh row whose `created` column is the current instant; on a uid conflict the
table keeps its length, the uid's row gets the new token hash and expiry but
keeps its old `created` value, and rows of other uids are untouched in content
and order. -/
theorem store_upsert_frame (db : List Session) (salt : Nat) (now : Int)
    (token uid : String) (ttl : Int) :
    (db.find? (fun r => r.uid == uid) = none →
      SQLiteStore.Store db salt now token uid ttl
        = db ++ [⟨bcrypt.GenerateFromPassword salt token, uid,
            unixSec (now + ttl), unixSec now⟩])
    ∧ (∀ s, db.find? (fun r => r.uid == uid) = some s →
        (SQLiteStore.Store db salt now token uid ttl).length = db.length
        ∧ SQLiteStore.getSessionByUID (SQLiteStore.Store db salt now token uid ttl) uid
            = .ok ⟨bcrypt.GenerateFromPassword salt token, uid,
                unixSec (now + ttl), s.created⟩)
    ∧ (SQLiteStore.Store db salt now token uid ttl).filter (fun r => !(r.uid == uid))
        = db.filter (fun r => !(r.uid == uid)) := by
  refine ⟨?_, ?_, Store_filter_ne db salt now token uid ttl⟩
  · intro hnone
    have hany : db.any (fun r => r.uid == uid) = false :=
      List.any_eq_false.mpr (List.find?_eq_none.mp hnone)
    unfold SQLiteStore.Store
    simp only [hany, Bool.false_eq_true, if_false]
  · intro s hsome
    constructor
    · have hps := List.find?_some hsome
      have hany : db.any (fun r => r.uid == uid) = true :=
        List.any_eq_true.mpr ⟨s, List.mem_of_find?_eq_some hsome, hps⟩
      unfold SQLiteStore.Store
      simp [hany]
    · rw [getSessionByUID_Store]
      unfold createdAfter
      rw [hsome]

theorem store_upsert_frame_witness :
    SQLiteStore.Store [] 5 0 "t1" "uid" (3600 * nsPerSec)
        = [⟨⟨5, "t1"⟩, "uid", 3600, 0⟩]
      ∧ ((SQLiteStore.Store [⟨⟨5, "t1"⟩, "uid", 3600, 0⟩] 7 (10 * nsPerSec)
            "t2" "uid" (3600 * nsPerSec)).length = 1
        ∧ SQLiteStore.getSessionByUID
            (SQLiteStore.Store [⟨⟨5, "t1"⟩, "uid", 3600, 0⟩] 7 (10 * nsPerSec)
              "t2" "uid" (3600 * nsPerSec)) "uid"
            = .ok ⟨⟨7, "t2"⟩, "uid", 3610, 0⟩) :=
  ⟨((store_upsert_frame [] 5 0 "t1" "uid" (3600 * nsPerSec)).1 rfl).trans (by decide),
   ((store_upsert_frame [⟨⟨5, "t1"⟩, "uid", 3600, 0⟩] 7 (10 * nsPerSec)
        "t2" "uid" (3600 * nsPerSec)).2.1 ⟨⟨5, "t1"⟩, "uid", 3600, 0⟩ (by rfl)).imp
      id (fun h => h.trans (by rfl))⟩

/-- C10: expiry is decided on Unix-second values with a strict comparison, and
`Store` writes timestamps at second resolution (flooring the instant
`now + ttl`).  At the boundary where the current second equals the stored
expiry second the token is still reported present by `Exists`; and whenever
the TTL's sub-second truncation lands `expires` in the current second,
`Verify` still accepts the stored token and `Exists` still reports it
present. -/
theorem expiry_boundary_second (db : List Session) (salt : Nat) (now : Int)
    (token uid : String) (ttl : Int) :
    (∀ s, SQLiteStore.getSessionByUID db uid = .ok s → unixSec now = s.expires →
      SQLiteStore.Exists db now uid = (true, some s.expires, none))
    ∧ (unixSec (now + ttl) = unixSec now →
      SQLiteStore.Verify (SQLiteStore.Store db salt now token uid ttl) now token uid
          = (true, none)
        ∧ (SQLiteStore.Exists (SQLiteStore.Store db salt now token uid ttl) now uid).1
            = true) := by
  constructor
  · intro s hs heq
    unfold SQLiteStore.Exists
    rw [hs]
    simp [← heq]
  · intro heq
    constructor
    · unfold SQLiteStore.Verify SQLiteStore.VerifyInstr
      rw [getSessionByUID_Store]
      simp [heq, bcrypt.CompareHashAndPassword, bcrypt.GenerateFromPassword]
    · unfold SQLiteStore.Exists
      rw [getSessionByUID_Store]
      simp [heq]

theorem expiry_boundary_second_witness :
    SQLiteStore.Exists [⟨⟨0, "t"⟩, "uid", 0, 0⟩] 500000000 "uid"
        = (true, some 0, none)
      ∧ (SQLiteStore.Verify
            (SQLiteStore.Store [] 0 500000000 "t" "uid" (-200000000))
            500000000 "t" "uid" = (true, none)
        ∧ (SQLiteStore.Exists
            (SQLiteStore.Store [] 0 500000000 "t" "uid" (-200000000))
            500000000 "uid").1 = true) :=
  ⟨(expiry_boundary_second [⟨⟨0, "t"⟩, "uid", 0, 0⟩] 0 500000000 "t" "uid" 0).1
      ⟨⟨0, "t"⟩, "uid", 0, 0⟩ (by rfl) (by decide),
   (expiry_boundary_second [] 0 500000000 "t" "uid" (-200000000)).2 (by decide)⟩
